import Mathlib

/-!
Verification of the Deep Work Session timer app (single-screen countdown
timer with day-rollover target resolution, 1-second countdown ticks,
repeating alarm, and display wake lock).

Time model: local wall-clock time is linear, measured in milliseconds since a
local epoch that falls on a midnight (the app's stated non-goal excludes
timezone/DST handling beyond local wall-clock time, so calendar days are
uniform 86,400,000 ms spans and JavaScript `setDate(getDate()+1)` is +1 day).

The component's React state and the two recurring timers are embedded as an
explicit state record `AppState` with an executable transition function
`step`; each user/timer event is processed atomically together with the
re-run of the `useEffect` that reacts to `targetTime` changes (the code's
event handling is synchronous single-threaded).
-/

namespace DeepWork

/-! ## Clock arithmetic -/

def msPerSecond : Nat := 1000

def msPerMinute : Nat := 1000 * 60

def msPerHour : Nat := 1000 * 60 * 60

def msPerDay : Nat := 1000 * 60 * 60 * 24

/-- Calendar day index of a timestamp (JavaScript date part). -/
def dayOf (t : Nat) : Nat := t / msPerDay

/-- Hour-of-day of a timestamp, as JavaScript `getHours()`. -/
def hourOf (t : Nat) : Nat := t % msPerDay / msPerHour

/-- Minute-of-hour of a timestamp, as JavaScript `getMinutes()`. -/
def minuteOf (t : Nat) : Nat := t % msPerHour / msPerMinute

/-- Second-of-minute of a timestamp, as JavaScript `getSeconds()`. -/
def secondOf (t : Nat) : Nat := t % msPerMinute / msPerSecond

/-- Millisecond-of-second of a timestamp, as JavaScript `getMilliseconds()`. -/
def msOf (t : Nat) : Nat := t % msPerSecond

/-! ## Duration Resolver (`handleTimeChange`)

`const target = new Date(); target.setHours(hours); target.setMinutes(minutes);
target.setSeconds(0);` produces today's date with the picked hour and minute,
seconds zeroed, and `now`'s millisecond field left unchanged (one-argument
`setSeconds` does not touch milliseconds). -/

/-- The candidate timestamp built by `handleTimeChange` before the rollover
check: today's date, picked hour and minute, zero seconds, `now`'s ms. -/
def pickCandidate (hours minutes now : Nat) : Nat :=
  dayOf now * msPerDay + hours * msPerHour + minutes * msPerMinute + msOf now

/-- The resolved target of `handleTimeChange`: if the candidate is ≤ now it is
moved to the next calendar day (`target.setDate(target.getDate() + 1)`). -/
def resolveTarget (hours minutes now : Nat) : Nat :=
  if pickCandidate hours minutes now ≤ now then
    pickCandidate hours minutes now + msPerDay
  else
    pickCandidate hours minutes now

/-! ## Countdown tick arithmetic -/

/-- Remaining time as displayed, fields `Int`-valued to mirror JavaScript
numbers (`Math.floor` on a possibly negative quotient). -/
structure TimeLeft where
  hours : Int
  minutes : Int
  seconds : Int
  deriving Repr, DecidableEq

def TimeLeft.zero : TimeLeft := ⟨0, 0, 0⟩

/-- The remaining-time components computed on a countdown tick:
`hours = Math.floor(difference / 3600000)`,
`minutes = Math.floor((difference % 3600000) / 60000)`,
`seconds = Math.floor((difference % 60000) / 1000)`.
`Int.fdiv` is `Math.floor` of the real quotient; `Int.tmod` is JavaScript
`%` (remainder with the dividend's sign). -/
def computeTimeLeft (difference : Int) : TimeLeft where
  hours := difference.fdiv (1000 * 60 * 60)
  minutes := (difference.tmod (1000 * 60 * 60)).fdiv (1000 * 60)
  seconds := (difference.tmod (1000 * 60)).fdiv 1000

/-! ## Component state and events -/

/-- The component's state: React state hooks, refs, and the scheduling status
of the two recurring timers, plus observable counters for the externally
visible effects (expiry signals to the Alarm Engine, sound plays, haptic
pulses). `countdownPeriod`/`alarmIntervalPeriod` are `some p` exactly when the
corresponding `setInterval` handle is live with period `p` ms. -/
structure AppState where
  targetTime : Option Nat
  timeLeft : TimeLeft
  isAlarmActive : Bool
  soundLoaded : Bool
  alarmIntervalPeriod : Option Nat
  countdownPeriod : Option Nat
  keepAwakeHeld : Bool
  expirySignals : Nat
  soundPlays : Nat
  hapticPulses : Nat
  deriving Repr, DecidableEq

/-- Initial component state: no target, zero display, alarm inactive, no
timers, wake lock released. -/
def initState : AppState where
  targetTime := none
  timeLeft := TimeLeft.zero
  isAlarmActive := false
  soundLoaded := false
  alarmIntervalPeriod := none
  countdownPeriod := none
  keepAwakeHeld := false
  expirySignals := 0
  soundPlays := 0
  hapticPulses := 0

/-- Modelled from the spec: the display wake-lock primitive
(`activateKeepAwakeAsync` of `expo-keep-awake`) is an idempotent activate
call on lock state. -/
def activateKeepAwake (_held : Bool) : Bool := true

/-- Modelled from the spec: the display wake-lock primitive
(`deactivateKeepAwake` of `expo-keep-awake`) is an idempotent deactivate
call on lock state. -/
def deactivateKeepAwake (_held : Bool) : Bool := false

/-- Events that can reach the controller: a confirmed time pick (only
delivered while the Set Time button is rendered), a countdown interval tick
carrying the current time, an alarm interval tick (its flag says whether the
audio playback throws on this tick), and a press of the Stop button. -/
inductive Event where
  | pickTime (hours minutes now : Nat)
  | countdownTick (now : Nat)
  | alarmTick (playFails : Bool)
  | pressStop
  deriving Repr, DecidableEq

/-- Whether the Set Time button is rendered: `!targetTime && !isAlarmActive`. -/
def setTimeShown (s : AppState) : Bool := s.targetTime.isNone && !s.isAlarmActive

/-- Whether the Stop button is rendered: `targetTime || isAlarmActive`. -/
def stopShown (s : AppState) : Bool := s.targetTime.isSome || s.isAlarmActive

/-- The `stopAlarm` handler: clear the alarm interval, release the sound
object, mark the alarm inactive. -/
def stopAlarm (s : AppState) : AppState :=
  { s with alarmIntervalPeriod := none, soundLoaded := false, isAlarmActive := false }

/-- The `playNotificationSound` handler: mark the alarm active, release any
previous sound and create a fresh player, play it, fire a haptic pulse, and
(re)schedule the 2000 ms repeating alarm interval. -/
def playNotificationSound (s : AppState) : AppState :=
  { s with
    isAlarmActive := true
    soundLoaded := true
    soundPlays := s.soundPlays + 1
    hapticPulses := s.hapticPulses + 1
    alarmIntervalPeriod := some 2000 }

/-- One tick of the alarm repeat interval: if the sound reference is live,
play it again, otherwise recreate the player and play; then a haptic pulse.
The whole body is inside a try/catch, so a playback failure is logged and the
tick ends with the interval still scheduled. -/
def alarmIntervalTick (s : AppState) (playFails : Bool) : AppState :=
  match s.alarmIntervalPeriod with
  | some _ =>
      if playFails then
        { s with soundLoaded := true }
      else
        { s with
          soundLoaded := true
          soundPlays := s.soundPlays + 1
          hapticPulses := s.hapticPulses + 1 }
  | none => s

/-- One tick of the countdown interval (only fires while the interval handle
is live). `difference = targetTime.getTime() - now.getTime()`; on
`difference <= 0` the interval is cleared, the display zeroed, the target
cleared, and `playNotificationSound()` invoked (one expiry signal to the
Alarm Engine), after which the `useEffect` re-runs with a null target and
deactivates the wake lock; otherwise the split remaining time is published. -/
def countdownIntervalTick (s : AppState) (now : Nat) : AppState :=
  match s.countdownPeriod, s.targetTime with
  | some _, some t =>
      let difference : Int := (t : Int) - (now : Int)
      if difference ≤ 0 then
        let s1 := { s with
          countdownPeriod := none
          timeLeft := TimeLeft.zero
          targetTime := none }
        let s2 := playNotificationSound s1
        { s2 with
          expirySignals := s2.expirySignals + 1
          keepAwakeHeld := deactivateKeepAwake s2.keepAwakeHeld }
      else
        { s with timeLeft := computeTimeLeft difference }
  | _, _ => s

/-- The transition function: each event processed atomically together with
the `targetTime` effect (wake-lock management and countdown-interval
setup/cleanup). -/
def step (s : AppState) (e : Event) : AppState :=
  match e with
  | .pickTime hours minutes now =>
      if setTimeShown s then
        let s1 := { s with targetTime := some (resolveTarget hours minutes now) }
        { s1 with
          keepAwakeHeld := activateKeepAwake s1.keepAwakeHeld
          countdownPeriod := some 1000 }
      else s
  | .countdownTick now => countdownIntervalTick s now
  | .alarmTick playFails => alarmIntervalTick s playFails
  | .pressStop =>
      if stopShown s then
        let s1 := stopAlarm { s with targetTime := none, timeLeft := TimeLeft.zero }
        { s1 with
          keepAwakeHeld := deactivateKeepAwake s1.keepAwakeHeld
          countdownPeriod := none }
      else s

/-- States reachable from the initial component state. -/
inductive Reachable : AppState → Prop where
  | init : Reachable initState
  | next {s : AppState} (e : Event) : Reachable s → Reachable (step s e)

/-! ## Helper lemmas -/

/-- On a nonnegative difference, the JavaScript-style floor/remainder
operations coincide with Euclidean division. -/
lemma computeTimeLeft_eq_of_nonneg (d : Int) (hd : 0 ≤ d) :
    computeTimeLeft d =
      ⟨d / (1000 * 60 * 60), d % (1000 * 60 * 60) / (1000 * 60), d % (1000 * 60) / 1000⟩ := by
  unfold computeTimeLeft
  rw [Int.tmod_eq_emod hd (by norm_num), Int.tmod_eq_emod hd (by norm_num),
      Int.fdiv_eq_ediv _ (by norm_num), Int.fdiv_eq_ediv _ (by norm_num),
      Int.fdiv_eq_ediv _ (by norm_num)]

lemma computeTimeLeft_bounds (d : Int) (hd : 0 < d) :
    0 ≤ (computeTimeLeft d).hours ∧
    0 ≤ (computeTimeLeft d).minutes ∧ (computeTimeLeft d).minutes < 60 ∧
    0 ≤ (computeTimeLeft d).seconds ∧ (computeTimeLeft d).seconds < 60 ∧
    (computeTimeLeft d).hours * 3600 + (computeTimeLeft d).minutes * 60 +
      (computeTimeLeft d).seconds = d.fdiv 1000 := by
  rw [computeTimeLeft_eq_of_nonneg d hd.le, Int.fdiv_eq_ediv _ (by norm_num)]
  refine ⟨?_, ?_, ?_, ?_, ?_, ?_⟩ <;> simp only [] <;> omega

/-- The controller invariant: the countdown interval is scheduled (at 1000 ms)
exactly while a target is present; the alarm repeat interval is scheduled (at
2000 ms) exactly while the alarm is active; an active alarm excludes a
present target; the wake lock is held exactly while a target is present; and
the published remaining time is within range and never negative. -/
def Inv (s : AppState) : Prop :=
  s.countdownPeriod = (if s.targetTime.isSome then some 1000 else none) ∧
  s.alarmIntervalPeriod = (if s.isAlarmActive then some 2000 else none) ∧
  (s.isAlarmActive = true → s.targetTime = none) ∧
  s.keepAwakeHeld = s.targetTime.isSome ∧
  0 ≤ s.timeLeft.hours ∧
  0 ≤ s.timeLeft.minutes ∧ s.timeLeft.minutes < 60 ∧
  0 ≤ s.timeLeft.seconds ∧ s.timeLeft.seconds < 60

lemma inv_initState : Inv initState := by
  refine ⟨rfl, rfl, by simp [initState], rfl, ?_, ?_, ?_, ?_, ?_⟩ <;> decide

lemma inv_step (s : AppState) (e : Event) (h : Inv s) : Inv (step s e) := by
  obtain ⟨tt, tl, ia, sl, ap, cp, ka, es, sp, hp⟩ := s
  obtain ⟨hcp, hap, hex, hka, htl⟩ := h
  cases e with
  | pickTime hours minutes now =>
      cases tt <;> cases ia <;>
        simp_all [step, setTimeShown, Inv, activateKeepAwake]
  | countdownTick now =>
      cases tt with
      | none => cases cp <;> simp_all [step, countdownIntervalTick, Inv]
      | some t =>
          cases cp with
          | none => simp_all [step, countdownIntervalTick, Inv]
          | some p =>
              simp only [Option.isSome_some, if_true] at hcp hka
              have hex2 : ia = false := by
                by_contra hcontra
                simp only [Bool.not_eq_false] at hcontra
                exact Option.some_ne_none t (hex hcontra)
              rw [hex2] at hap
              simp only [Bool.false_eq_true, if_false] at hap
              by_cases hd : t ≤ now
              · have hle : (t : Int) - (now : Int) ≤ 0 := by omega
                simp only [step, countdownIntervalTick]
                rw [if_pos hle]
                refine ⟨?_, ?_, ?_, ?_, ?_, ?_, ?_, ?_, ?_⟩ <;>
                  simp [playNotificationSound, deactivateKeepAwake, TimeLeft.zero]
              · have hne : ¬ ((t : Int) - (now : Int) ≤ 0) := by omega
                have hb := computeTimeLeft_bounds ((t : Int) - (now : Int)) (by omega)
                simp only [step, countdownIntervalTick]
                rw [if_neg hne]
                exact ⟨by simp [hcp], by simp [hex2, hap], by simp [hex2], by simp [hka],
                  hb.1, hb.2.1, hb.2.2.1, hb.2.2.2.1, hb.2.2.2.2.1⟩
  | alarmTick playFails =>
      cases ap with
      | none =>
          cases playFails <;>
            exact ⟨hcp, hap, hex, hka, htl⟩
      | some p =>
          cases ia with
          | false => simp at hap
          | true =>
              cases playFails <;>
                exact ⟨hcp, hap, hex, hka, htl⟩
  | pressStop =>
      cases tt <;> cases ia <;>
        simp_all [step, stopShown, stopAlarm, Inv, deactivateKeepAwake, TimeLeft.zero]

lemma reachable_inv (s : AppState) (h : Reachable s) : Inv s := by
  induction h with
  | init => exact inv_initState
  | next e _ ih => exact inv_step _ e ih

/-- Whether an event is an expiring countdown tick in a given state: the
countdown interval is live, a target is present, and the tick's now has
reached it. -/
def expiringTick (s : AppState) (e : Event) : Bool :=
  match e with
  | .countdownTick now =>
      match s.countdownPeriod, s.targetTime with
      | some _, some t => decide ((t : Int) - (now : Int) ≤ 0)
      | _, _ => false
  | _ => false

/-- The expiry-signal counter moves only on an expiring countdown tick, and
then by exactly one. -/
lemma step_expirySignals (s : AppState) (e : Event) :
    (step s e).expirySignals =
      s.expirySignals + (if expiringTick s e = true then 1 else 0) := by
  obtain ⟨tt, tl, ia, sl, ap, cp, ka, es, sp, hpu⟩ := s
  cases e with
  | pickTime hours minutes now =>
      by_cases hs : setTimeShown ⟨tt, tl, ia, sl, ap, cp, ka, es, sp, hpu⟩ = true <;>
        simp [step, expiringTick, hs]
  | countdownTick now =>
      cases cp with
      | none => cases tt <;> simp [step, countdownIntervalTick, expiringTick]
      | some p =>
          cases tt with
          | none => simp [step, countdownIntervalTick, expiringTick]
          | some t =>
              by_cases hd : (t : Int) - (now : Int) ≤ 0
              · simp only [step, countdownIntervalTick, expiringTick]
                rw [if_pos hd]
                simp [playNotificationSound, hd]
              · simp only [step, countdownIntervalTick, expiringTick]
                rw [if_neg hd]
                simp [hd]
  | alarmTick b =>
      cases ap with
      | none => simp [step, alarmIntervalTick, expiringTick]
      | some p => cases b <;> simp [step, alarmIntervalTick, expiringTick]
  | pressStop =>
      by_cases hs : stopShown ⟨tt, tl, ia, sl, ap, cp, ka, es, sp, hpu⟩ = true <;>
        simp [step, stopAlarm, expiringTick, hs]

/-- With no target and no live countdown interval, a countdown tick cannot
fire: the state is unchanged. -/
lemma countdownTick_noTarget (s : AppState) (h0 : s.targetTime = none)
    (hc : s.countdownPeriod = none) (now : Nat) :
    step s (Event.countdownTick now) = s := by
  obtain ⟨tt, tl, ia, sl, ap, cp, ka, es, sp, hpu⟩ := s
  cases tt with
  | some t => simp at h0
  | none =>
      cases cp with
      | some p => simp at hc
      | none => rfl

/-- The expiring countdown tick, evaluated: interval cleared, display zeroed,
target cleared, alarm engine invoked. -/
lemma expiry_step_eq (s : AppState) (t now : Nat)
    (ht : s.targetTime = some t) (hc : s.countdownPeriod = some 1000)
    (hd : (t : Int) - (now : Int) ≤ 0) :
    step s (Event.countdownTick now) =
      { s with
        targetTime := none
        timeLeft := TimeLeft.zero
        countdownPeriod := none
        isAlarmActive := true
        soundLoaded := true
        soundPlays := s.soundPlays + 1
        hapticPulses := s.hapticPulses + 1
        alarmIntervalPeriod := some 2000
        expirySignals := s.expirySignals + 1
        keepAwakeHeld := false } := by
  obtain ⟨tt, tl, ia, sl, ap, cp, ka, es, sp, hpu⟩ := s
  simp only at ht hc
  subst ht
  subst hc
  simp only [step, countdownIntervalTick]
  rw [if_pos hd]
  rfl

/-! ## Witness states -/

/-- A running state: at 14:59:30.000 on day 0 the user picked 15:00, so the
target is today 15:00:00.000 (= 54,000,000 ms). -/
def sRun : AppState := step initState (Event.pickTime 15 0 53970000)

/-- The state after the countdown tick at exactly 15:00:00.000: the alarm is
active and repeating. -/
def sExpired : AppState := step sRun (Event.countdownTick 54000000)

lemma sRun_reachable : Reachable sRun :=
  Reachable.next _ Reachable.init

lemma sExpired_reachable : Reachable sExpired :=
  Reachable.next _ sRun_reachable

/-! ## Claim theorems -/

/-- C10: for every countdown tick with diff > 0, the published
RemainingDuration triple (hours, minutes, seconds) satisfies
0 ≤ minutes < 60, 0 ≤ seconds < 60, hours ≥ 0, and recombines exactly:
hours·3600 + minutes·60 + seconds = floor(diff / 1000). -/
theorem countdownTick_publishes_exact_split (s : AppState) (p t now : Nat)
    (hcp : s.countdownPeriod = some p) (ht : s.targetTime = some t)
    (hpos : (now : Int) < (t : Int)) :
    (step s (Event.countdownTick now)).timeLeft = computeTimeLeft ((t : Int) - (now : Int)) ∧
    0 ≤ (computeTimeLeft ((t : Int) - (now : Int))).hours ∧
    0 ≤ (computeTimeLeft ((t : Int) - (now : Int))).minutes ∧
    (computeTimeLeft ((t : Int) - (now : Int))).minutes < 60 ∧
    0 ≤ (computeTimeLeft ((t : Int) - (now : Int))).seconds ∧
    (computeTimeLeft ((t : Int) - (now : Int))).seconds < 60 ∧
    (computeTimeLeft ((t : Int) - (now : Int))).hours * 3600 +
      (computeTimeLeft ((t : Int) - (now : Int))).minutes * 60 +
      (computeTimeLeft ((t : Int) - (now : Int))).seconds =
      ((t : Int) - (now : Int)).fdiv 1000 := by
  have hb := computeTimeLeft_bounds ((t : Int) - (now : Int)) (by omega)
  refine ⟨?_, hb.1, hb.2.1, hb.2.2.1, hb.2.2.2.1, hb.2.2.2.2.1, hb.2.2.2.2.2⟩
  simp only [step, countdownIntervalTick, hcp, ht]
  rw [if_neg (by omega)]

theorem countdownTick_publishes_exact_split_witness :
    (step { initState with targetTime := some 54000000, countdownPeriod := some 1000 }
        (Event.countdownTick 53970000)).timeLeft = computeTimeLeft 30000 ∧
    0 ≤ (computeTimeLeft 30000).hours ∧
    0 ≤ (computeTimeLeft 30000).minutes ∧
    (computeTimeLeft 30000).minutes < 60 ∧
    0 ≤ (computeTimeLeft 30000).seconds ∧
    (computeTimeLeft 30000).seconds < 60 ∧
    (computeTimeLeft 30000).hours * 3600 +
      (computeTimeLeft 30000).minutes * 60 +
      (computeTimeLeft 30000).seconds = (30000 : Int).fdiv 1000 := by
  have h := countdownTick_publishes_exact_split
    { initState with targetTime := some 54000000, countdownPeriod := some 1000 }
    1000 54000000 53970000 rfl rfl (by norm_num)
  norm_num at h ⊢
  exact h

/-- C1: for every picked (hour, minute) and every now, the candidate built by
handleTimeChange has today's date, the picked hour and minute and zero
seconds; the resolver adds one calendar day exactly when candidate ≤ now
(boundary at ≤); the resolved target is strictly greater than now; and a pick
of the current minute resolves to tomorrow. -/
theorem handleTimeChange_resolves_future (hours minutes now : Nat)
    (hh : hours < 24) (hm : minutes < 60) :
    dayOf (pickCandidate hours minutes now) = dayOf now ∧
    hourOf (pickCandidate hours minutes now) = hours ∧
    minuteOf (pickCandidate hours minutes now) = minutes ∧
    secondOf (pickCandidate hours minutes now) = 0 ∧
    resolveTarget hours minutes now =
      (if pickCandidate hours minutes now ≤ now then
        pickCandidate hours minutes now + msPerDay
      else pickCandidate hours minutes now) ∧
    now < resolveTarget hours minutes now ∧
    (hours = hourOf now → minutes = minuteOf now →
      dayOf (resolveTarget hours minutes now) = dayOf now + 1) := by
  unfold resolveTarget pickCandidate dayOf hourOf minuteOf secondOf msOf
    msPerDay msPerHour msPerMinute msPerSecond
  refine ⟨by omega, by omega, by omega, by omega, rfl, ?_, ?_⟩
  · split <;> omega
  · intro h1 h2
    rw [if_pos (by omega)]
    omega

theorem handleTimeChange_resolves_future_witness :
    15 < 24 ∧ 0 < 60 ∧
    (dayOf (pickCandidate 15 0 53970000) = dayOf 53970000 ∧
     hourOf (pickCandidate 15 0 53970000) = 15 ∧
     minuteOf (pickCandidate 15 0 53970000) = 0 ∧
     secondOf (pickCandidate 15 0 53970000) = 0 ∧
     resolveTarget 15 0 53970000 =
       (if pickCandidate 15 0 53970000 ≤ 53970000 then
         pickCandidate 15 0 53970000 + msPerDay
       else pickCandidate 15 0 53970000) ∧
     53970000 < resolveTarget 15 0 53970000 ∧
     (15 = hourOf 53970000 → 0 = minuteOf 53970000 →
       dayOf (resolveTarget 15 0 53970000) = dayOf 53970000 + 1)) :=
  ⟨by norm_num, by norm_num,
   handleTimeChange_resolves_future 15 0 53970000 (by norm_num) (by norm_num)⟩

/-- C5: for every (hour, minute) selection at time now, the resolved target's
time-of-day is exactly (hour, minute, 0), and its date is today when the
requested (hour, minute) is strictly after now's time-of-day, otherwise
tomorrow. -/
theorem resolveTarget_timeOfDay_and_date (hours minutes now : Nat)
    (hh : hours < 24) (hm : minutes < 60) :
    hourOf (resolveTarget hours minutes now) = hours ∧
    minuteOf (resolveTarget hours minutes now) = minutes ∧
    secondOf (resolveTarget hours minutes now) = 0 ∧
    dayOf (resolveTarget hours minutes now) =
      (if now % msPerDay < hours * msPerHour + minutes * msPerMinute then
        dayOf now
      else dayOf now + 1) := by
  unfold resolveTarget pickCandidate dayOf hourOf minuteOf secondOf msOf
    msPerDay msPerHour msPerMinute msPerSecond
  refine ⟨?_, ?_, ?_, ?_⟩ <;> (split <;> try split) <;> omega

theorem resolveTarget_timeOfDay_and_date_witness :
    15 < 24 ∧ 0 < 60 ∧
    (hourOf (resolveTarget 15 0 54030000) = 15 ∧
     minuteOf (resolveTarget 15 0 54030000) = 0 ∧
     secondOf (resolveTarget 15 0 54030000) = 0 ∧
     dayOf (resolveTarget 15 0 54030000) =
       (if 54030000 % msPerDay < 15 * msPerHour + 0 * msPerMinute then
         dayOf 54030000
       else dayOf 54030000 + 1)) :=
  ⟨by norm_num, by norm_num,
   resolveTarget_timeOfDay_and_date 15 0 54030000 (by norm_num) (by norm_num)⟩

/-- C3 counterexample: with now = 15:00:30.000 on day 0, a pick of 15:00 (a
time that has already passed today) is not rejected: handleTimeChange sets
TargetTime to tomorrow 15:00 and the countdown is armed (interval scheduled,
wake lock acquired) — the state does change. -/
theorem pastPick_arms_countdown :
    (step initState (Event.pickTime 15 0 54030000)).targetTime = some 140400000 ∧
    (step initState (Event.pickTime 15 0 54030000)).countdownPeriod = some 1000 ∧
    step initState (Event.pickTime 15 0 54030000) ≠ initState := by
  refine ⟨by decide, by decide, by decide⟩

/-- C3 amended: a selection whose (hour, minute) has already passed today is
never rejected; every confirmed selection made while the Set Time button is
shown sets TargetTime and arms the countdown, and a past-or-current pick is
resolved to the same (hour, minute) on the next calendar day. -/
theorem handleTimeChange_never_rejects (hours minutes now : Nat) (s : AppState)
    (hshown : setTimeShown s = true) :
    (step s (Event.pickTime hours minutes now)).targetTime =
      some (resolveTarget hours minutes now) ∧
    (step s (Event.pickTime hours minutes now)).countdownPeriod = some 1000 ∧
    (pickCandidate hours minutes now ≤ now →
      resolveTarget hours minutes now = pickCandidate hours minutes now + msPerDay) := by
  refine ⟨?_, ?_, ?_⟩
  · simp [step, hshown]
  · simp [step, hshown]
  · intro hpast
    unfold resolveTarget
    rw [if_pos hpast]

/-- C2: on any countdown tick with diff ≤ 0 the engine stops the interval,
zeroes RemainingDuration, clears TargetTime and signals expiry to the Alarm
Engine; the expiry-signal counter moves by exactly one on an expiring tick
and is untouched by every other event (so a lifecycle signals expiry exactly
once); with no target a tick cannot fire; and the published RemainingDuration
is never negative. -/
theorem countdown_expiry_exactly_once (s : AppState) (hreach : Reachable s) :
    (∀ (t now : Nat), s.targetTime = some t → (t : Int) - (now : Int) ≤ 0 →
      (step s (Event.countdownTick now)).countdownPeriod = none ∧
      (step s (Event.countdownTick now)).timeLeft = TimeLeft.zero ∧
      (step s (Event.countdownTick now)).targetTime = none ∧
      (step s (Event.countdownTick now)).expirySignals = s.expirySignals + 1 ∧
      (step s (Event.countdownTick now)).isAlarmActive = true) ∧
    (∀ e, (step s e).expirySignals =
      s.expirySignals + (if expiringTick s e = true then 1 else 0)) ∧
    (s.targetTime = none → ∀ now, step s (Event.countdownTick now) = s) ∧
    0 ≤ s.timeLeft.hours ∧ 0 ≤ s.timeLeft.minutes ∧ 0 ≤ s.timeLeft.seconds := by
  obtain ⟨hcp, hap, hex, hka, htl⟩ := reachable_inv s hreach
  refine ⟨?_, fun e => step_expirySignals s e, ?_, htl.1, htl.2.1, htl.2.2.2.1⟩
  · intro t now ht hd
    have hc : s.countdownPeriod = some 1000 := by rw [hcp, ht]; rfl
    rw [expiry_step_eq s t now ht hc hd]
    exact ⟨rfl, rfl, rfl, rfl, rfl⟩
  · intro h0 now
    have hc : s.countdownPeriod = none := by rw [hcp, h0]; rfl
    exact countdownTick_noTarget s h0 hc now

theorem countdown_expiry_exactly_once_witness :
    (step sRun (Event.countdownTick 54000000)).expirySignals = sRun.expirySignals + 1 ∧
    (step sRun (Event.countdownTick 54000000)).targetTime = none :=
  have h := (countdown_expiry_exactly_once sRun sRun_reachable).1
    54000000 54000000 (by decide) (by decide)
  ⟨h.2.2.2.1, h.2.2.1⟩

/-- C4: in every reachable state, a target is present iff the recurring
1000 ms recomputation interval is scheduled; an active alarm implies the
target is absent (and no countdown interval); target and alarm are never
simultaneously active; and while the alarm is active a time pick is a no-op
(the Set Time button is not rendered), so no new countdown can be armed. -/
theorem controller_mutual_exclusion (s : AppState) (hreach : Reachable s) :
    (s.targetTime.isSome = true ↔ s.countdownPeriod = some 1000) ∧
    (s.isAlarmActive = true → s.targetTime = none ∧ s.countdownPeriod = none) ∧
    ¬(s.targetTime.isSome = true ∧ s.isAlarmActive = true) ∧
    (∀ hours minutes now, s.isAlarmActive = true →
      step s (Event.pickTime hours minutes now) = s) := by
  obtain ⟨hcp, hap, hex, hka, htl⟩ := reachable_inv s hreach
  refine ⟨?_, ?_, ?_, ?_⟩
  · rw [hcp]
    cases h : s.targetTime.isSome <;> simp
  · intro ha
    have h0 := hex ha
    exact ⟨h0, by rw [hcp, h0]; rfl⟩
  · rintro ⟨hsome, ha⟩
    rw [hex ha] at hsome
    simp at hsome
  · intro hours minutes now ha
    have hs : setTimeShown s = false := by simp [setTimeShown, ha]
    simp [step, hs]

theorem controller_mutual_exclusion_witness :
    (sExpired.targetTime.isSome = true ↔ sExpired.countdownPeriod = some 1000) ∧
    (sExpired.isAlarmActive = true →
      sExpired.targetTime = none ∧ sExpired.countdownPeriod = none) ∧
    ¬(sExpired.targetTime.isSome = true ∧ sExpired.isAlarmActive = true) ∧
    (∀ hours minutes now, sExpired.isAlarmActive = true →
      step sExpired (Event.pickTime hours minutes now) = sExpired) :=
  controller_mutual_exclusion sExpired sExpired_reachable

/-- C6: pressing Stop while Running clears the target, zeroes the display,
stops the countdown interval, releases the wake lock, and leaves the alarm
inactive with no expiry signal, sound, or haptic emitted. -/
theorem stop_cancels_without_alarm (s : AppState) (t : Nat)
    (ht : s.targetTime = some t) :
    (step s Event.pressStop).targetTime = none ∧
    (step s Event.pressStop).timeLeft = TimeLeft.zero ∧
    (step s Event.pressStop).countdownPeriod = none ∧
    (step s Event.pressStop).isAlarmActive = false ∧
    (step s Event.pressStop).alarmIntervalPeriod = none ∧
    (step s Event.pressStop).keepAwakeHeld = false ∧
    (step s Event.pressStop).expirySignals = s.expirySignals ∧
    (step s Event.pressStop).soundPlays = s.soundPlays ∧
    (step s Event.pressStop).hapticPulses = s.hapticPulses := by
  have hs : stopShown s = true := by simp [stopShown, ht]
  simp [step, hs, stopAlarm, deactivateKeepAwake]

theorem stop_cancels_without_alarm_witness :
    (step sRun Event.pressStop).targetTime = none ∧
    (step sRun Event.pressStop).timeLeft = TimeLeft.zero ∧
    (step sRun Event.pressStop).countdownPeriod = none ∧
    (step sRun Event.pressStop).isAlarmActive = false ∧
    (step sRun Event.pressStop).alarmIntervalPeriod = none ∧
    (step sRun Event.pressStop).keepAwakeHeld = false ∧
    (step sRun Event.pressStop).expirySignals = sRun.expirySignals ∧
    (step sRun Event.pressStop).soundPlays = sRun.soundPlays ∧
    (step sRun Event.pressStop).hapticPulses = sRun.hapticPulses :=
  stop_cancels_without_alarm sRun 54000000 (by decide)

/-- C7: on expiry the alarm becomes Active with an immediate sound play and
haptic pulse and a 2000 ms repeat interval; every repeat tick keeps the alarm
Active with the interval scheduled (a successful tick replays sound and
haptic); and the user's Stop cancels the interval, releases the sound
resource, and returns the alarm to Inactive. -/
theorem alarm_repeats_until_stop (s : AppState) (hreach : Reachable s) :
    (∀ (t now : Nat), s.targetTime = some t → (t : Int) - (now : Int) ≤ 0 →
      (step s (Event.countdownTick now)).isAlarmActive = true ∧
      (step s (Event.countdownTick now)).soundPlays = s.soundPlays + 1 ∧
      (step s (Event.countdownTick now)).hapticPulses = s.hapticPulses + 1 ∧
      (step s (Event.countdownTick now)).alarmIntervalPeriod = some 2000) ∧
    (∀ b, s.isAlarmActive = true →
      (step s (Event.alarmTick b)).isAlarmActive = true ∧
      (step s (Event.alarmTick b)).alarmIntervalPeriod = some 2000) ∧
    (s.isAlarmActive = true →
      (step s (Event.alarmTick false)).soundPlays = s.soundPlays + 1 ∧
      (step s (Event.alarmTick false)).hapticPulses = s.hapticPulses + 1) ∧
    (s.isAlarmActive = true →
      (step s Event.pressStop).alarmIntervalPeriod = none ∧
      (step s Event.pressStop).soundLoaded = false ∧
      (step s Event.pressStop).isAlarmActive = false) := by
  obtain ⟨hcp, hap, hex, hka, htl⟩ := reachable_inv s hreach
  refine ⟨?_, ?_, ?_, ?_⟩
  · intro t now ht hd
    have hc : s.countdownPeriod = some 1000 := by rw [hcp, ht]; rfl
    rw [expiry_step_eq s t now ht hc hd]
    exact ⟨rfl, rfl, rfl, rfl⟩
  · intro b ha
    have h2 : s.alarmIntervalPeriod = some 2000 := by rw [hap, ha]; rfl
    cases b <;> simp [step, alarmIntervalTick, h2, ha]
  · intro ha
    have h2 : s.alarmIntervalPeriod = some 2000 := by rw [hap, ha]; rfl
    simp [step, alarmIntervalTick, h2]
  · intro ha
    have hs : stopShown s = true := by simp [stopShown, ha]
    simp [step, hs, stopAlarm]

theorem alarm_repeats_until_stop_witness :
    (sExpired.isAlarmActive = true →
      (step sExpired (Event.alarmTick false)).soundPlays = sExpired.soundPlays + 1 ∧
      (step sExpired (Event.alarmTick false)).hapticPulses = sExpired.hapticPulses + 1) ∧
    (sExpired.isAlarmActive = true →
      (step sExpired Event.pressStop).alarmIntervalPeriod = none ∧
      (step sExpired Event.pressStop).soundLoaded = false ∧
      (step sExpired Event.pressStop).isAlarmActive = false) :=
  have h := alarm_repeats_until_stop sExpired sExpired_reachable
  ⟨h.2.2.1, h.2.2.2⟩

/-- C8: in every reachable state the wake lock is held exactly while a target
is present (acquired on arming, released on expiry or cancellation — this
code keeps no alarm-active extension); and the activate/deactivate primitives
are idempotent under repeated invocation. -/
theorem wakeLock_held_iff_running (s : AppState) (hreach : Reachable s) :
    s.keepAwakeHeld = s.targetTime.isSome ∧
    (∀ w, activateKeepAwake (activateKeepAwake w) = activateKeepAwake w) ∧
    (∀ w, deactivateKeepAwake (deactivateKeepAwake w) = deactivateKeepAwake w) ∧
    (∀ hours minutes now, s.targetTime = none → s.isAlarmActive = false →
      (step s (Event.pickTime hours minutes now)).keepAwakeHeld = true) ∧
    (∀ (t now : Nat), s.targetTime = some t → (t : Int) - (now : Int) ≤ 0 →
      (step s (Event.countdownTick now)).keepAwakeHeld = false) ∧
    (step s Event.pressStop).keepAwakeHeld = false := by
  obtain ⟨hcp, hap, hex, hka, htl⟩ := reachable_inv s hreach
  refine ⟨hka, fun w => rfl, fun w => rfl, ?_, ?_, ?_⟩
  · intro hours minutes now h0 ha
    have hs : setTimeShown s = true := by simp [setTimeShown, h0, ha]
    simp [step, hs, activateKeepAwake]
  · intro t now ht hd
    have hc : s.countdownPeriod = some 1000 := by rw [hcp, ht]; rfl
    rw [expiry_step_eq s t now ht hc hd]
  · by_cases hs : stopShown s = true
    · simp [step, hs, stopAlarm, deactivateKeepAwake]
    · have hnone : s.targetTime = none := by
        cases h : s.targetTime with
        | none => rfl
        | some t => rw [stopShown, h] at hs; simp at hs
      simp only [step, hs, Bool.false_eq_true, if_false]
      rw [hka, hnone]
      rfl

theorem wakeLock_held_iff_running_witness :
    sRun.keepAwakeHeld = sRun.targetTime.isSome ∧
    (∀ w, activateKeepAwake (activateKeepAwake w) = activateKeepAwake w) ∧
    (∀ w, deactivateKeepAwake (deactivateKeepAwake w) = deactivateKeepAwake w) ∧
    (∀ hours minutes now, sRun.targetTime = none → sRun.isAlarmActive = false →
      (step sRun (Event.pickTime hours minutes now)).keepAwakeHeld = true) ∧
    (∀ (t now : Nat), sRun.targetTime = some t → (t : Int) - (now : Int) ≤ 0 →
      (step sRun (Event.countdownTick now)).keepAwakeHeld = false) ∧
    (step sRun Event.pressStop).keepAwakeHeld = false :=
  wakeLock_held_iff_running sRun sRun_reachable

/-- C9: while the alarm repeat interval is scheduled, a tick on which
playback throws is absorbed (logged and ignored): the interval stays
scheduled, no play is counted; a tick that finds the sound reference absent
recreates it; and the next successful tick plays again — the loop never
breaks permanently. -/
theorem alarmTick_retries_on_failure (s : AppState) (p : Nat)
    (hper : s.alarmIntervalPeriod = some p) :
    (∀ b, (step s (Event.alarmTick b)).alarmIntervalPeriod = some p) ∧
    (step s (Event.alarmTick true)).soundPlays = s.soundPlays ∧
    (s.soundLoaded = false → (step s (Event.alarmTick false)).soundLoaded = true) ∧
    (step s (Event.alarmTick false)).soundPlays = s.soundPlays + 1 ∧
    (step (step s (Event.alarmTick true)) (Event.alarmTick false)).soundPlays
      = s.soundPlays + 1 := by
  refine ⟨?_, ?_, ?_, ?_, ?_⟩
  · intro b
    cases b <;> simp [step, alarmIntervalTick, hper]
  · simp [step, alarmIntervalTick, hper]
  · intro hsl
    simp [step, alarmIntervalTick, hper]
  · simp [step, alarmIntervalTick, hper]
  · have h1 : step s (Event.alarmTick true) = { s with soundLoaded := true } := by
      simp [step, alarmIntervalTick, hper]
    rw [h1]
    simp [step, alarmIntervalTick, hper]

theorem alarmTick_retries_on_failure_witness :
    (∀ b, (step sExpired (Event.alarmTick b)).alarmIntervalPeriod = some 2000) ∧
    (step sExpired (Event.alarmTick true)).soundPlays = sExpired.soundPlays ∧
    (sExpired.soundLoaded = false →
      (step sExpired (Event.alarmTick false)).soundLoaded = true) ∧
    (step sExpired (Event.alarmTick false)).soundPlays = sExpired.soundPlays + 1 ∧
    (step (step sExpired (Event.alarmTick true)) (Event.alarmTick false)).soundPlays
      = sExpired.soundPlays + 1 :=
  alarmTick_retries_on_failure sExpired 2000 (by decide)

theorem handleTimeChange_never_rejects_witness :
    setTimeShown initState = true ∧
    ((step initState (Event.pickTime 15 0 54030000)).targetTime =
       some (resolveTarget 15 0 54030000) ∧
     (step initState (Event.pickTime 15 0 54030000)).countdownPeriod = some 1000 ∧
     (pickCandidate 15 0 54030000 ≤ 54030000 →
       resolveTarget 15 0 54030000 = pickCandidate 15 0 54030000 + msPerDay)) :=
  ⟨by decide, handleTimeChange_never_rejects 15 0 54030000 initState (by decide)⟩

end DeepWork
